import Mathlib

/-!
# Shallow embedding of the dnscat2 client session state machine

This file embeds `src/client/controller/session.c` in Lean 4 and proves
properties of the session protocol logic: handshake, 16-bit sequence and
acknowledgment bookkeeping, the retransmission timer, and the
outgoing-buffer lifecycle.

Modelling conventions:
* Machine integers are `Nat` with explicit reductions modulo `2^16`
  (the C code writes `& 0xFFFF`, equal to `% 65536`) and modulo `2^64` for
  `size_t` arithmetic.
* The externally supplied driver is modelled by the response a single
  `driver_get_outgoing` poll returns (`DriverResp`); calls the session makes
  into the driver (`driver_data_received`, `driver_close`) are recorded as a
  list of `DriverEvent`s.
* The packet codec is external; incoming frames are modelled as already
  parsed (`InPacket`) and outgoing frames as the packet the codec is asked to
  serialize (`OutPacket`).  The codec's per-option MSG header overhead
  `packet_get_msg_size` is an explicit function parameter `msgSize`.
* The C calls `exit(0)` / `exit(1)` on fatal frames in the `New` state; this
  is modelled by the `exit_code` field of the result.
* Wall-clock time (`time_ms`) is an explicit `now : Nat` parameter in
  milliseconds.
-/

/-- Application bytes; the session never inspects their values. -/
abbrev Byte := Nat

/-- The states `SESSION_STATE_NEW` / `SESSION_STATE_ESTABLISHED` (closed set). -/
inductive SessionState where
  | new
  | established
deriving DecidableEq

/-- The `session_t` structure: the fields `session.c` reads and writes. -/
structure Session where
  id : Nat
  state : SessionState
  my_seq : Nat
  their_seq : Nat
  is_shutdown : Bool
  last_transmit : Nat
  outgoing_buffer : List Byte
  options : Nat
  name : Option String
deriving DecidableEq

/-- Result of one `driver_get_outgoing` poll: `closed` is the C `NULL`
return (no data will ever be produced again), `bytes bs` is a returned
chunk (possibly empty). -/
inductive DriverResp where
  | closed
  | bytes (bs : List Byte)
deriving DecidableEq

/-- Calls the session makes into the driver while processing a frame. -/
inductive DriverEvent where
  | dataReceived (bs : List Byte)
  | closedDriver
deriving DecidableEq

/-- A parsed incoming frame (`packet_parse` output), plus `other` for an
unrecognized packet-type byte. -/
structure SynBody where
  seq : Nat
  options : Nat
deriving DecidableEq

structure MsgBody where
  seq : Nat
  ack : Nat
  data : List Byte
deriving DecidableEq

inductive InPacket where
  | syn (b : SynBody)
  | msg (b : MsgBody)
  | fin (reason : String)
  | other (typ : Nat)
deriving DecidableEq

/-- An outgoing frame as handed to the codec for serialization. -/
inductive OutPacket where
  | syn (id seq options : Nat)
  | msg (id seq ack : Nat) (data : List Byte)
  | fin (id : Nat) (reason : String)
deriving DecidableEq

/-- The `uint16_t` subtraction `a - b` (operands are 16-bit values). -/
def sub16 (a b : Nat) : Nat := (65536 + a % 65536 - b % 65536) % 65536

/-- The `size_t` subtraction `a - b` (operands are 64-bit values). -/
def sub64 (a b : Nat) : Nat := (2 ^ 64 + a % 2 ^ 64 - b % 2 ^ 64) % 2 ^ 64

/-- The constant `RETRANSMIT_DELAY` (milliseconds). -/
def RETRANSMIT_DELAY : Nat := 1000

/-- Function `update_counter`: record the transmission time. -/
def update_counter (now : Nat) (s : Session) : Session :=
  { s with last_transmit := now }

/-- Function `can_i_transmit_yet`: true iff strictly more than `RETRANSMIT_DELAY`
milliseconds have elapsed since `last_transmit`. -/
def can_i_transmit_yet (now : Nat) (s : Session) : Bool :=
  decide (RETRANSMIT_DELAY < now - s.last_transmit)

/-- Function `poll_for_data`: pull available bytes from the driver into
`outgoing_buffer`; if the driver returned `NULL` and the buffer is empty,
enter shutdown mode. -/
def poll_for_data (drv : DriverResp) (s : Session) : Session :=
  match drv with
  | .closed =>
      if s.outgoing_buffer.length = 0 then { s with is_shutdown := true } else s
  | .bytes bs =>
      if bs.length ≠ 0 then { s with outgoing_buffer := s.outgoing_buffer ++ bs } else s

/-- The bytes a poll appends to the buffer. -/
def poll_bytes : DriverResp → List Byte
  | .closed => []
  | .bytes bs => bs

/-- Result of `session_get_outgoing`: the produced frame (`none` when the
retransmission timer suppressed production) and the updated session. -/
structure OutgoingResult where
  frame : Option OutPacket
  session : Session
deriving DecidableEq

/-- The body of `session_get_outgoing` after the driver poll: the timer
gate followed by the switch on `session->state`. -/
def outgoing_step (msgSize : Nat → Nat) (now : Nat) (s : Session) (max_length : Nat) :
    OutgoingResult :=
  if can_i_transmit_yet now s = false then
    ⟨none, s⟩
  else
    match s.state with
    | .new =>
        ⟨some (.syn s.id s.my_seq 0), update_counter now s⟩
    | .established =>
        let data := s.outgoing_buffer.take (sub64 max_length (msgSize s.options))
        if data.length = 0 ∧ s.is_shutdown = true then
          ⟨some (.fin s.id "Stream closed"), update_counter now s⟩
        else
          ⟨some (.msg s.id s.my_seq s.their_seq data), update_counter now s⟩

/-- Function `session_get_outgoing`: poll the driver, then run the timer gate and
state switch. -/
def session_get_outgoing (msgSize : Nat → Nat) (now : Nat) (s : Session)
    (max_length : Nat) (drv : DriverResp) : OutgoingResult :=
  outgoing_step msgSize now (poll_for_data drv s) max_length

/-- Result of `session_data_incoming`: updated session, driver calls made,
and the process exit code when the C code calls `exit`. -/
structure IncomingResult where
  session : Session
  events : List DriverEvent
  exit_code : Option Nat
deriving DecidableEq

/-- The quantity `bytes_acked` as computed by the C code:
`uint16_t bytes_acked = packet->body.msg.options.normal.ack - session->my_seq`. -/
def bytesAcked (m : MsgBody) (s : Session) : Nat := sub16 m.ack s.my_seq

/-- The switch on `session->state` in `session_data_incoming`, run after the
driver poll. -/
def incoming_dispatch (s : Session) (pkt : InPacket) : IncomingResult :=
  match s.state with
  | .new =>
      match pkt with
      | .syn b =>
          ⟨{ s with their_seq := b.seq, options := b.options,
                    state := .established }, [], none⟩
      | .msg _ => ⟨s, [], none⟩
      | .fin _ => ⟨s, [], some 0⟩
      | .other _ => ⟨s, [], some 1⟩
  | .established =>
      match pkt with
      | .syn _ => ⟨s, [], none⟩
      | .msg m =>
          if m.seq = s.their_seq then
            if bytesAcked m s ≤ s.outgoing_buffer.length then
              let s1 := { s with their_seq := (s.their_seq + m.data.length) % 65536 }
              let s2 := { s1 with outgoing_buffer := s1.outgoing_buffer.drop (bytesAcked m s) }
              let s3 := if bytesAcked m s ≠ 0 then
                          { s2 with my_seq := (s2.my_seq + bytesAcked m s) % 65536 }
                        else s2
              ⟨s3, if 0 < m.data.length then [DriverEvent.dataReceived m.data] else [], none⟩
            else ⟨s, [], none⟩
          else ⟨s, [], none⟩
      | .fin _ => ⟨{ s with is_shutdown := true }, [DriverEvent.closedDriver], none⟩
      | .other _ => ⟨{ s with is_shutdown := true }, [DriverEvent.closedDriver], none⟩

/-- Function `session_data_incoming`: parse (already done in `pkt`), poll the driver,
then dispatch on the state. -/
def session_data_incoming (s : Session) (pkt : InPacket) (drv : DriverResp) :
    IncomingResult :=
  incoming_dispatch (poll_for_data drv s) pkt

/-- The process-wide default of the `isn` override global (`0xFFFFFFFF`,
deliberately not a 16-bit value so that a random ISN is used). -/
def ISN_DEFAULT : Nat := 0xFFFFFFFF

/-- Function `debug_set_isn`: the global `isn` becomes the `uint16_t` argument. -/
def debug_set_isn (value : Nat) : Nat := value % 65536

/-- Function `session_create`: `r_id` and `r_seq` model the two `rand()` draws,
`isn` the override global. -/
def session_create (isn : Nat) (r_id r_seq : Nat) (name : Option String) : Session :=
  { id := r_id % 0xFFFF
  , my_seq := if isn % 65536 = isn then isn % 65536 else r_seq % 0xFFFF
  , state := .new
  , their_seq := 0
  , is_shutdown := false
  , last_transmit := 0
  , outgoing_buffer := []
  , options := 0
  , name := name }

/-- One externally driven operation on a session: handing it an incoming
frame, or asking it to produce an outgoing frame. -/
inductive Op where
  | incoming (pkt : InPacket) (drv : DriverResp)
  | outgoing (msgSize : Nat → Nat) (now : Nat) (max_length : Nat) (drv : DriverResp)

/-- Apply one operation; `none` when the operation exits the process. -/
def applyOp (op : Op) (s : Session) : Option Session :=
  match op with
  | .incoming pkt drv =>
      let r := session_data_incoming s pkt drv
      if r.exit_code.isSome then none else some r.session
  | .outgoing msgSize now max_length drv =>
      some (session_get_outgoing msgSize now s max_length drv).session

/-- Apply a sequence of operations. -/
def applyOps (ops : List Op) (s : Session) : Option Session :=
  match ops with
  | [] => some s
  | op :: rest => (applyOp op s).bind (applyOps rest)

/-! ## Basic lemmas about the driver poll -/

theorem poll_state (drv : DriverResp) (s : Session) :
    (poll_for_data drv s).state = s.state := by
  cases drv <;> simp only [poll_for_data] <;> split <;> rfl

theorem poll_my_seq (drv : DriverResp) (s : Session) :
    (poll_for_data drv s).my_seq = s.my_seq := by
  cases drv <;> simp only [poll_for_data] <;> split <;> rfl

theorem poll_their_seq (drv : DriverResp) (s : Session) :
    (poll_for_data drv s).their_seq = s.their_seq := by
  cases drv <;> simp only [poll_for_data] <;> split <;> rfl

theorem poll_last_transmit (drv : DriverResp) (s : Session) :
    (poll_for_data drv s).last_transmit = s.last_transmit := by
  cases drv <;> simp only [poll_for_data] <;> split <;> rfl

theorem poll_options (drv : DriverResp) (s : Session) :
    (poll_for_data drv s).options = s.options := by
  cases drv <;> simp only [poll_for_data] <;> split <;> rfl

theorem poll_id (drv : DriverResp) (s : Session) :
    (poll_for_data drv s).id = s.id := by
  cases drv <;> simp only [poll_for_data] <;> split <;> rfl

theorem poll_buffer (drv : DriverResp) (s : Session) :
    (poll_for_data drv s).outgoing_buffer = s.outgoing_buffer ++ poll_bytes drv := by
  cases drv with
  | closed => simp only [poll_for_data, poll_bytes, List.append_nil] ; split <;> rfl
  | bytes bs =>
      simp only [poll_for_data, poll_bytes]
      split
      · rfl
      · next h =>
          simp only [ne_eq, not_not, List.length_eq_zero] at h
          simp [h]

theorem poll_shutdown_mono (drv : DriverResp) (s : Session)
    (h : s.is_shutdown = true) : (poll_for_data drv s).is_shutdown = true := by
  cases drv <;> simp only [poll_for_data] <;> split <;> first | rfl | exact h

theorem can_i_transmit_poll (now : Nat) (drv : DriverResp) (s : Session) :
    can_i_transmit_yet now (poll_for_data drv s) = can_i_transmit_yet now s := by
  simp only [can_i_transmit_yet, poll_last_transmit]

/-! ## Reduction lemmas for the incoming-frame dispatch -/

theorem dispatch_new_syn (s : Session) (b : SynBody) (h : s.state = .new) :
    incoming_dispatch s (.syn b) =
      ⟨{ s with their_seq := b.seq, options := b.options, state := .established },
        [], none⟩ := by
  simp only [incoming_dispatch, h]

theorem dispatch_new_msg (s : Session) (m : MsgBody) (h : s.state = .new) :
    incoming_dispatch s (.msg m) = ⟨s, [], none⟩ := by
  simp only [incoming_dispatch, h]

theorem dispatch_est_syn (s : Session) (b : SynBody) (h : s.state = .established) :
    incoming_dispatch s (.syn b) = ⟨s, [], none⟩ := by
  simp only [incoming_dispatch, h]

theorem dispatch_est_msg_accept (s : Session) (m : MsgBody)
    (h : s.state = .established) (hseq : m.seq = s.their_seq)
    (hack : bytesAcked m s ≤ s.outgoing_buffer.length) :
    incoming_dispatch s (.msg m) =
      ⟨(if bytesAcked m s ≠ 0 then
          { s with their_seq := (s.their_seq + m.data.length) % 65536,
                   outgoing_buffer := s.outgoing_buffer.drop (bytesAcked m s),
                   my_seq := (s.my_seq + bytesAcked m s) % 65536 }
        else
          { s with their_seq := (s.their_seq + m.data.length) % 65536,
                   outgoing_buffer := s.outgoing_buffer.drop (bytesAcked m s) }),
        (if 0 < m.data.length then [DriverEvent.dataReceived m.data] else []),
        none⟩ := by
  simp only [incoming_dispatch, h]
  rw [if_pos hseq, if_pos hack]

theorem dispatch_est_msg_badseq (s : Session) (m : MsgBody)
    (h : s.state = .established) (hseq : m.seq ≠ s.their_seq) :
    incoming_dispatch s (.msg m) = ⟨s, [], none⟩ := by
  simp only [incoming_dispatch, h]
  rw [if_neg hseq]

theorem dispatch_est_msg_badack (s : Session) (m : MsgBody)
    (h : s.state = .established) (hseq : m.seq = s.their_seq)
    (hack : s.outgoing_buffer.length < bytesAcked m s) :
    incoming_dispatch s (.msg m) = ⟨s, [], none⟩ := by
  simp only [incoming_dispatch, h]
  rw [if_pos hseq, if_neg (by omega)]

/-! ## Reduction lemmas for outgoing-frame production -/

theorem outgoing_step_blocked (msgSize : Nat → Nat) (now : Nat) (s : Session)
    (max_length : Nat) (h : can_i_transmit_yet now s = false) :
    outgoing_step msgSize now s max_length = ⟨none, s⟩ := by
  simp only [outgoing_step, h]
  rfl

theorem outgoing_step_new (msgSize : Nat → Nat) (now : Nat) (s : Session)
    (max_length : Nat) (ht : can_i_transmit_yet now s = true)
    (hst : s.state = .new) :
    outgoing_step msgSize now s max_length =
      ⟨some (.syn s.id s.my_seq 0), update_counter now s⟩ := by
  simp only [outgoing_step, ht, hst]
  rfl

theorem outgoing_step_est (msgSize : Nat → Nat) (now : Nat) (s : Session)
    (max_length : Nat) (ht : can_i_transmit_yet now s = true)
    (hst : s.state = .established) :
    outgoing_step msgSize now s max_length =
      (if (s.outgoing_buffer.take (sub64 max_length (msgSize s.options))).length = 0
          ∧ s.is_shutdown = true then
        ⟨some (.fin s.id "Stream closed"), update_counter now s⟩
      else
        ⟨some (.msg s.id s.my_seq s.their_seq
                 (s.outgoing_buffer.take (sub64 max_length (msgSize s.options)))),
          update_counter now s⟩) := by
  simp only [outgoing_step, ht, hst]
  rfl

theorem get_outgoing_blocked (msgSize : Nat → Nat) (now : Nat) (s : Session)
    (max_length : Nat) (drv : DriverResp)
    (h : can_i_transmit_yet now s = false) :
    session_get_outgoing msgSize now s max_length drv = ⟨none, poll_for_data drv s⟩ := by
  unfold session_get_outgoing
  exact outgoing_step_blocked msgSize now _ max_length
    (by rw [can_i_transmit_poll]; exact h)

/-- A production call yields a frame exactly when the retransmission timer
has expired, and the frame records the emission time. -/
theorem outgoing_frame_iff_timer (msgSize : Nat → Nat) (now : Nat) (s : Session)
    (max_length : Nat) (drv : DriverResp) :
    ((session_get_outgoing msgSize now s max_length drv).frame ≠ none ↔
       can_i_transmit_yet now s = true) ∧
    ((session_get_outgoing msgSize now s max_length drv).frame ≠ none →
       (session_get_outgoing msgSize now s max_length drv).session.last_transmit = now) ∧
    ((session_get_outgoing msgSize now s max_length drv).frame = none →
       (session_get_outgoing msgSize now s max_length drv).session = poll_for_data drv s) := by
  unfold session_get_outgoing
  rcases ht : can_i_transmit_yet now (poll_for_data drv s) with _ | _
  · rw [outgoing_step_blocked msgSize now _ max_length ht]
    rw [can_i_transmit_poll] at ht
    simp [ht]
  · have ht2 := ht
    rw [can_i_transmit_poll] at ht2
    rcases hst : (poll_for_data drv s).state with _ | _
    · rw [outgoing_step_new msgSize now _ max_length ht hst]
      simp [ht2, update_counter]
    · rw [outgoing_step_est msgSize now _ max_length ht hst]
      split <;> simp [ht2, update_counter]

/-! ## Claim theorems -/

/-- C1: every MSG frame accepted in the Established state (its seq equals
`their_seq` and `bytes_acked = (frame.ack - my_seq) mod 2^16` is at most the
current `outgoing_buffer` length, both read after the unconditional driver
poll) advances `their_seq` by the payload length mod 2^16, removes exactly
`bytes_acked` bytes from the front of `outgoing_buffer`, advances `my_seq`
by `bytes_acked` mod 2^16 when `bytes_acked` is nonzero (leaving it
unchanged when zero), forwards the payload to the driver iff it is
non-empty, and does not exit. -/
theorem c1_msg_accept (s : Session) (drv : DriverResp) (m : MsgBody)
    (hst : s.state = .established)
    (hseq : m.seq = (poll_for_data drv s).their_seq)
    (hack : bytesAcked m (poll_for_data drv s) ≤
            (poll_for_data drv s).outgoing_buffer.length) :
    (session_data_incoming s (.msg m) drv).session.their_seq =
      ((poll_for_data drv s).their_seq + m.data.length) % 65536 ∧
    (session_data_incoming s (.msg m) drv).session.outgoing_buffer =
      (poll_for_data drv s).outgoing_buffer.drop (bytesAcked m (poll_for_data drv s)) ∧
    (session_data_incoming s (.msg m) drv).session.outgoing_buffer.length
        + bytesAcked m (poll_for_data drv s)
      = (poll_for_data drv s).outgoing_buffer.length ∧
    (bytesAcked m (poll_for_data drv s) ≠ 0 →
      (session_data_incoming s (.msg m) drv).session.my_seq =
        ((poll_for_data drv s).my_seq + bytesAcked m (poll_for_data drv s)) % 65536) ∧
    (bytesAcked m (poll_for_data drv s) = 0 →
      (session_data_incoming s (.msg m) drv).session.my_seq =
        (poll_for_data drv s).my_seq) ∧
    (0 < m.data.length →
      (session_data_incoming s (.msg m) drv).events = [DriverEvent.dataReceived m.data]) ∧
    (m.data.length = 0 → (session_data_incoming s (.msg m) drv).events = []) ∧
    (session_data_incoming s (.msg m) drv).exit_code = none := by
  have hst1 : (poll_for_data drv s).state = .established := by
    rw [poll_state]; exact hst
  unfold session_data_incoming
  rw [dispatch_est_msg_accept (poll_for_data drv s) m hst1 hseq hack]
  set s1 := poll_for_data drv s with hs1
  refine ⟨?_, ?_, ?_, ?_, ?_, ?_, ?_, ?_⟩
  · by_cases hb : bytesAcked m s1 ≠ 0 <;> simp [hb]
  · by_cases hb : bytesAcked m s1 ≠ 0 <;> simp [hb]
  · by_cases hb : bytesAcked m s1 ≠ 0 <;> simp [hb, List.length_drop] <;> omega
  · intro hb; simp [hb]
  · intro hb; simp [hb]
  · intro hd; simp [hd]
  · intro hd; simp [hd]
  · by_cases hb : bytesAcked m s1 ≠ 0 <;> simp [hb]

/-- C1 witness: for `my_seq = 100`, `their_seq = 0`, a 5-byte buffer, and a
MSG with `seq = 0`, `ack = 105`, empty payload, the buffer becomes empty,
`my_seq` becomes 105 and `their_seq` stays 0. -/
theorem c1_msg_accept_witness :
    (session_data_incoming
        ⟨1, .established, 100, 0, false, 0, [1, 2, 3, 4, 5], 0, none⟩
        (.msg ⟨0, 105, []⟩) (.bytes [])).session.outgoing_buffer = [] ∧
    (session_data_incoming
        ⟨1, .established, 100, 0, false, 0, [1, 2, 3, 4, 5], 0, none⟩
        (.msg ⟨0, 105, []⟩) (.bytes [])).session.my_seq = 105 ∧
    (session_data_incoming
        ⟨1, .established, 100, 0, false, 0, [1, 2, 3, 4, 5], 0, none⟩
        (.msg ⟨0, 105, []⟩) (.bytes [])).session.their_seq = 0 := by
  have h := c1_msg_accept
      ⟨1, .established, 100, 0, false, 0, [1, 2, 3, 4, 5], 0, none⟩
      (.bytes []) ⟨0, 105, []⟩ rfl (by decide) (by decide)
  refine ⟨?_, ?_, ?_⟩
  · rw [h.2.1]; decide
  · rw [h.2.2.2.1 (by decide)]; decide
  · rw [h.1]; decide

/-- C4: a session in the New state that receives a SYN carrying initial
sequence number `s` and options `O` sets `their_seq` to `s`, the session
options to `O`, and moves the state to Established. -/
theorem c4_syn_handshake (s : Session) (drv : DriverResp) (b : SynBody)
    (hst : s.state = .new) :
    (session_data_incoming s (.syn b) drv).session.their_seq = b.seq ∧
    (session_data_incoming s (.syn b) drv).session.options = b.options ∧
    (session_data_incoming s (.syn b) drv).session.state = .established ∧
    (session_data_incoming s (.syn b) drv).exit_code = none := by
  have hst1 : (poll_for_data drv s).state = .new := by
    rw [poll_state]; exact hst
  unfold session_data_incoming
  rw [dispatch_new_syn (poll_for_data drv s) b hst1]
  exact ⟨rfl, rfl, rfl, rfl⟩

/-- C4 witness: a fresh session given a SYN with initial sequence `0x1234`
ends Established with `their_seq = 0x1234`. -/
theorem c4_syn_handshake_witness :
    (session_data_incoming (session_create ISN_DEFAULT 3 4 none)
        (.syn ⟨0x1234, 7⟩) (.bytes [])).session.their_seq = 0x1234 ∧
    (session_data_incoming (session_create ISN_DEFAULT 3 4 none)
        (.syn ⟨0x1234, 7⟩) (.bytes [])).session.options = 7 ∧
    (session_data_incoming (session_create ISN_DEFAULT 3 4 none)
        (.syn ⟨0x1234, 7⟩) (.bytes [])).session.state = .established := by
  have h := c4_syn_handshake (session_create ISN_DEFAULT 3 4 none)
      (.bytes []) ⟨0x1234, 7⟩ rfl
  exact ⟨h.1, h.2.1, h.2.2.1⟩

/-- C8 counterexample: the claim says an ignored frame (here a SYN while
Established) leaves the outgoing buffer unchanged, but the unconditional
driver poll at the start of `session_data_incoming` appends pending driver
bytes to the buffer even when the frame itself is ignored. -/
theorem c8_poll_mutates_on_ignored :
    (session_data_incoming ⟨1, .established, 0, 0, false, 0, [], 0, none⟩
        (.syn ⟨5, 0⟩) (.bytes [2])).session.outgoing_buffer ≠
      (⟨1, .established, 0, 0, false, 0, [], 0, none⟩ : Session).outgoing_buffer := by
  decide

/-- C8 amended: an unexpected-but-survivable frame — a SYN while
Established, or a MSG while New — is ignored: relative to the session state
after the unconditional driver poll, nothing changes (state, `my_seq`,
`their_seq`, `is_shutdown`, options and buffer equal those of the
post-poll state), no driver call is made, and the process does not exit. -/
theorem c8_ignored_no_change (s₁ s₂ : Session) (drv₁ drv₂ : DriverResp)
    (b : SynBody) (m : MsgBody)
    (h1 : s₁.state = .established) (h2 : s₂.state = .new) :
    session_data_incoming s₁ (.syn b) drv₁ = ⟨poll_for_data drv₁ s₁, [], none⟩ ∧
    session_data_incoming s₂ (.msg m) drv₂ = ⟨poll_for_data drv₂ s₂, [], none⟩ := by
  constructor
  · unfold session_data_incoming
    exact dispatch_est_syn _ b (by rw [poll_state]; exact h1)
  · unfold session_data_incoming
    exact dispatch_new_msg _ m (by rw [poll_state]; exact h2)

/-- C8 amended witness: concrete ignored frames in both states. -/
theorem c8_ignored_no_change_witness :
    session_data_incoming ⟨1, .established, 10, 20, false, 0, [5], 0, none⟩
        (.syn ⟨9, 1⟩) (.bytes []) =
      ⟨poll_for_data (.bytes []) ⟨1, .established, 10, 20, false, 0, [5], 0, none⟩,
        [], none⟩ ∧
    session_data_incoming ⟨2, .new, 0, 0, false, 0, [], 0, none⟩
        (.msg ⟨0, 0, [2]⟩) (.bytes []) =
      ⟨poll_for_data (.bytes []) ⟨2, .new, 0, 0, false, 0, [], 0, none⟩,
        [], none⟩ :=
  c8_ignored_no_change
    ⟨1, .established, 10, 20, false, 0, [5], 0, none⟩
    ⟨2, .new, 0, 0, false, 0, [], 0, none⟩
    (.bytes []) (.bytes []) ⟨9, 1⟩ ⟨0, 0, [2]⟩ rfl rfl

/-- C3 counterexample: the claim says a MSG failing validation leaves the
outgoing buffer contents the same after the call as before, but the
unconditional driver poll appends pending driver bytes even when the frame
is then dropped for a bad SEQ. -/
theorem c3_poll_mutates_on_reject :
    (session_data_incoming ⟨1, .established, 0, 0, false, 0, [], 0, none⟩
        (.msg ⟨1, 0, []⟩) (.bytes [7])).session.outgoing_buffer ≠
      (⟨1, .established, 0, 0, false, 0, [], 0, none⟩ : Session).outgoing_buffer := by
  decide

/-- C3 amended: a MSG received while Established that fails validation
(SEQ mismatch against `their_seq`, or `bytes_acked` exceeding the bytes in
the buffer, both read after the unconditional driver poll) is dropped:
relative to the post-poll state nothing changes, no payload is forwarded
to the driver, and the process does not exit. -/
theorem c3_reject_no_change (s : Session) (drv : DriverResp) (m : MsgBody)
    (hst : s.state = .established)
    (hbad : m.seq ≠ (poll_for_data drv s).their_seq ∨
            (poll_for_data drv s).outgoing_buffer.length <
              bytesAcked m (poll_for_data drv s)) :
    session_data_incoming s (.msg m) drv = ⟨poll_for_data drv s, [], none⟩ := by
  have hst1 : (poll_for_data drv s).state = .established := by
    rw [poll_state]; exact hst
  unfold session_data_incoming
  rcases hbad with hb | hb
  · exact dispatch_est_msg_badseq _ m hst1 hb
  · by_cases hseq : m.seq = (poll_for_data drv s).their_seq
    · exact dispatch_est_msg_badack _ m hst1 hseq hb
    · exact dispatch_est_msg_badseq _ m hst1 hseq

/-- C3 amended witness: a MSG with a stale SEQ (8 against `their_seq = 7`)
is dropped with no change beyond the (here contentless) poll. -/
theorem c3_reject_no_change_witness :
    session_data_incoming ⟨1, .established, 100, 7, false, 0, [1], 0, none⟩
        (.msg ⟨8, 100, [3]⟩) (.bytes []) =
      ⟨poll_for_data (.bytes []) ⟨1, .established, 100, 7, false, 0, [1], 0, none⟩,
        [], none⟩ :=
  c3_reject_no_change ⟨1, .established, 100, 7, false, 0, [1], 0, none⟩
    (.bytes []) ⟨8, 100, [3]⟩ rfl (Or.inl (by decide))

/-- C2 counterexample: the claim says that after the FIN is produced every
subsequent production call yields null, but once the retransmit delay has
elapsed again the session produces another (non-null) FIN frame: the close
frame is re-emitted every interval, not emitted once. -/
theorem c2_fin_retransmitted :
    (session_get_outgoing (fun _ => 10) 2000
        ⟨1, .established, 5, 6, true, 0, [], 0, none⟩ 100 .closed).frame =
      some (.fin 1 "Stream closed") ∧
    (session_get_outgoing (fun _ => 10) 3001
        (session_get_outgoing (fun _ => 10) 2000
            ⟨1, .established, 5, 6, true, 0, [], 0, none⟩ 100 .closed).session
        100 .closed).frame = some (.fin 1 "Stream closed") := by
  exact ⟨rfl, rfl⟩

/-- C2 amended: once `is_shutdown` is true with an empty buffer in the
Established state and the driver yields no further data, every production
call yields either null (while the retransmit timer has not expired) or
the FIN frame (whenever it has): the next timer-allowed call yields a FIN,
and later timer-allowed calls re-emit the FIN rather than yielding null;
no SYN or MSG is ever produced, and the session stays shut down with an
empty buffer. -/
theorem c2_shutdown_fin_only (msgSize : Nat → Nat) (now max_length : Nat)
    (s : Session) (drv : DriverResp)
    (hst : s.state = .established) (hshut : s.is_shutdown = true)
    (hbuf : s.outgoing_buffer = [])
    (hdrv : drv = .closed ∨ drv = .bytes []) :
    (can_i_transmit_yet now s = true →
       (session_get_outgoing msgSize now s max_length drv).frame =
         some (.fin s.id "Stream closed") ∧
       (session_get_outgoing msgSize now s max_length drv).session.last_transmit = now) ∧
    (can_i_transmit_yet now s = false →
       (session_get_outgoing msgSize now s max_length drv).frame = none ∧
       (session_get_outgoing msgSize now s max_length drv).session.last_transmit =
         s.last_transmit) ∧
    (session_get_outgoing msgSize now s max_length drv).session.state = .established ∧
    (session_get_outgoing msgSize now s max_length drv).session.is_shutdown = true ∧
    (session_get_outgoing msgSize now s max_length drv).session.outgoing_buffer = [] := by
  have hbytes : poll_bytes drv = [] := by
    rcases hdrv with h | h <;> subst h <;> rfl
  have hbuf1 : (poll_for_data drv s).outgoing_buffer = [] := by
    rw [poll_buffer, hbuf, hbytes]
    rfl
  have hshut1 : (poll_for_data drv s).is_shutdown = true := poll_shutdown_mono drv s hshut
  have hst1 : (poll_for_data drv s).state = .established := by
    rw [poll_state]; exact hst
  unfold session_get_outgoing
  rcases ht : can_i_transmit_yet now s with _ | _
  · have ht1 : can_i_transmit_yet now (poll_for_data drv s) = false := by
      rw [can_i_transmit_poll]; exact ht
    rw [outgoing_step_blocked msgSize now _ max_length ht1]
    refine ⟨fun hc => absurd hc (by simp [ht]), fun _ => ⟨rfl, poll_last_transmit drv s⟩,
            hst1, hshut1, hbuf1⟩
  · have ht1 : can_i_transmit_yet now (poll_for_data drv s) = true := by
      rw [can_i_transmit_poll]; exact ht
    rw [outgoing_step_est msgSize now _ max_length ht1 hst1]
    rw [if_pos ⟨by rw [hbuf1]; simp, hshut1⟩]
    refine ⟨fun _ => ⟨by rw [poll_id], rfl⟩, fun hc => absurd hc (by simp [ht]),
            hst1, hshut1, ?_⟩
    simp only [update_counter]
    exact hbuf1

/-- C2 amended witness: a shut-down Established session with an empty
buffer produces the FIN when the timer allows. -/
theorem c2_shutdown_fin_only_witness :
    (session_get_outgoing (fun _ => 10) 5000
        ⟨1, .established, 5, 6, true, 0, [], 0, none⟩ 100 .closed).frame =
      some (.fin 1 "Stream closed") ∧
    (session_get_outgoing (fun _ => 10) 5000
        ⟨1, .established, 5, 6, true, 0, [], 0, none⟩ 100 .closed).session.is_shutdown
      = true ∧
    (session_get_outgoing (fun _ => 10) 5000
        ⟨1, .established, 5, 6, true, 0, [], 0, none⟩ 100 .closed).session.outgoing_buffer
      = [] := by
  have h := c2_shutdown_fin_only (fun _ => 10) 5000 100
      ⟨1, .established, 5, 6, true, 0, [], 0, none⟩ .closed
      rfl rfl rfl (Or.inl rfl)
  exact ⟨(h.1 (by decide)).1, h.2.2.2.1, h.2.2.2.2⟩

/-- C6: producing an outgoing frame never removes bytes from the buffer:
after any `session_get_outgoing` call the buffer holds exactly the bytes it
held before, plus any newly pulled driver bytes appended at the end (the
Established branch reads the buffer non-destructively). -/
theorem c6_outgoing_nondestructive (msgSize : Nat → Nat) (now : Nat) (s : Session)
    (max_length : Nat) (drv : DriverResp) :
    (session_get_outgoing msgSize now s max_length drv).session.outgoing_buffer =
      s.outgoing_buffer ++ poll_bytes drv := by
  unfold session_get_outgoing
  rcases ht : can_i_transmit_yet now (poll_for_data drv s) with _ | _
  · rw [outgoing_step_blocked msgSize now _ max_length ht]
    exact poll_buffer drv s
  · rcases hst : (poll_for_data drv s).state with _ | _
    · rw [outgoing_step_new msgSize now _ max_length ht hst]
      exact poll_buffer drv s
    · rw [outgoing_step_est msgSize now _ max_length ht hst]
      split <;> exact poll_buffer drv s

/-- C7: two production calls within the retransmit delay (1000 ms) of each
other yield at most one non-null frame — when the first yields a frame,
the second returns null without recording an emission time — and any call
made strictly more than the delay after the last recorded emission yields
a frame again when data remains buffered. -/
theorem c7_retransmit_gate (msgSize : Nat → Nat) (s : Session)
    (t1 t2 max1 max2 : Nat) (drv1 drv2 : DriverResp)
    (hwin : t2 ≤ t1 + RETRANSMIT_DELAY) :
    ((session_get_outgoing msgSize t1 s max1 drv1).frame = none ∨
     (session_get_outgoing msgSize t2
        (session_get_outgoing msgSize t1 s max1 drv1).session max2 drv2).frame = none) ∧
    ((session_get_outgoing msgSize t1 s max1 drv1).frame ≠ none →
       (session_get_outgoing msgSize t2
          (session_get_outgoing msgSize t1 s max1 drv1).session max2 drv2).frame = none ∧
       (session_get_outgoing msgSize t2
          (session_get_outgoing msgSize t1 s max1 drv1).session max2 drv2).session.last_transmit
         = (session_get_outgoing msgSize t1 s max1 drv1).session.last_transmit) ∧
    (∀ (s3 : Session) (t3 max3 : Nat) (drv3 : DriverResp),
        RETRANSMIT_DELAY < t3 - s3.last_transmit →
        (poll_for_data drv3 s3).outgoing_buffer ≠ [] →
        (session_get_outgoing msgSize t3 s3 max3 drv3).frame ≠ none) := by
  have second : (session_get_outgoing msgSize t1 s max1 drv1).frame ≠ none →
      (session_get_outgoing msgSize t2
         (session_get_outgoing msgSize t1 s max1 drv1).session max2 drv2).frame = none ∧
      (session_get_outgoing msgSize t2
         (session_get_outgoing msgSize t1 s max1 drv1).session max2 drv2).session.last_transmit
        = (session_get_outgoing msgSize t1 s max1 drv1).session.last_transmit := by
    intro h1
    have hlt : (session_get_outgoing msgSize t1 s max1 drv1).session.last_transmit = t1 :=
      (outgoing_frame_iff_timer msgSize t1 s max1 drv1).2.1 h1
    have ht2 : can_i_transmit_yet t2
        (session_get_outgoing msgSize t1 s max1 drv1).session = false := by
      unfold can_i_transmit_yet RETRANSMIT_DELAY
      rw [hlt]
      simp only [decide_eq_false_iff_not, not_lt]
      have hw : t2 ≤ t1 + 1000 := hwin
      omega
    rw [get_outgoing_blocked msgSize t2 _ max2 drv2 ht2]
    exact ⟨rfl, poll_last_transmit drv2 _⟩
  refine ⟨?_, second, ?_⟩
  · by_cases h1 : (session_get_outgoing msgSize t1 s max1 drv1).frame = none
    · exact Or.inl h1
    · exact Or.inr (second h1).1
  · intro s3 t3 max3 drv3 h3 _
    exact (outgoing_frame_iff_timer msgSize t3 s3 max3 drv3).1.mpr
      (by simp only [can_i_transmit_yet, decide_eq_true_eq]; exact h3)

/-- C7 witness: on a fresh session (last emission at time 0), a call at
1001 ms emits a frame, a call at 1500 ms is suppressed with the emission
time unchanged, and a call at 3000 ms emits again. -/
theorem c7_retransmit_gate_witness :
    (session_get_outgoing (fun _ => 10) 1001
        ⟨1, .new, 50, 0, false, 0, [9], 0, none⟩ 100 (.bytes [])).frame ≠ none ∧
    (session_get_outgoing (fun _ => 10) 1500
        (session_get_outgoing (fun _ => 10) 1001
            ⟨1, .new, 50, 0, false, 0, [9], 0, none⟩ 100 (.bytes [])).session
        100 (.bytes [])).frame = none ∧
    (session_get_outgoing (fun _ => 10) 1500
        (session_get_outgoing (fun _ => 10) 1001
            ⟨1, .new, 50, 0, false, 0, [9], 0, none⟩ 100 (.bytes [])).session
        100 (.bytes [])).session.last_transmit = 1001 ∧
    (session_get_outgoing (fun _ => 10) 3000
        ⟨1, .new, 50, 1001, false, 1001, [9], 0, none⟩ 100 (.bytes [])).frame ≠ none := by
  have h := c7_retransmit_gate (fun _ => 10)
      ⟨1, .new, 50, 0, false, 0, [9], 0, none⟩ 1001 1500 100 100
      (.bytes []) (.bytes []) (by decide)
  have h1 : (session_get_outgoing (fun _ => 10) 1001
      ⟨1, .new, 50, 0, false, 0, [9], 0, none⟩ 100 (.bytes [])).frame ≠ none := by
    decide
  refine ⟨h1, (h.2.1 h1).1, ?_, ?_⟩
  · rw [(h.2.1 h1).2]; decide
  · exact h.2.2 ⟨1, .new, 50, 1001, false, 1001, [9], 0, none⟩ 3000 100 (.bytes [])
      (by decide) (by decide)

/-- C9: with `is_shutdown` true but a non-empty buffer, an Established
session whose timer allows transmission produces a MSG frame carrying the
peeked buffered bytes, not a FIN (given the size budget allows at least one
byte); and a FIN is built only when the number of available (peeked)
buffered bytes is exactly zero while shut down. -/
theorem c9_msg_when_buffer_nonempty (msgSize : Nat → Nat) (now max_length : Nat)
    (s : Session) (drv : DriverResp)
    (hst : s.state = .established) (hshut : s.is_shutdown = true)
    (hbuf : s.outgoing_buffer ≠ [])
    (ht : can_i_transmit_yet now s = true)
    (hroom : 0 < sub64 max_length (msgSize s.options)) :
    (session_get_outgoing msgSize now s max_length drv).frame =
      some (.msg s.id s.my_seq s.their_seq
        ((poll_for_data drv s).outgoing_buffer.take
          (sub64 max_length (msgSize s.options)))) ∧
    (∀ (s2 : Session) (now2 max2 : Nat) (drv2 : DriverResp) (i : Nat) (reason : String),
        (session_get_outgoing msgSize now2 s2 max2 drv2).frame = some (.fin i reason) →
        ((poll_for_data drv2 s2).outgoing_buffer.take
            (sub64 max2 (msgSize s2.options))).length = 0 ∧
        (poll_for_data drv2 s2).is_shutdown = true) := by
  constructor
  · have hst1 : (poll_for_data drv s).state = .established := by
      rw [poll_state]; exact hst
    have ht1 : can_i_transmit_yet now (poll_for_data drv s) = true := by
      rw [can_i_transmit_poll]; exact ht
    unfold session_get_outgoing
    rw [outgoing_step_est msgSize now _ max_length ht1 hst1]
    rw [poll_options]
    have hne : ((poll_for_data drv s).outgoing_buffer.take
        (sub64 max_length (msgSize s.options))).length ≠ 0 := by
      rw [poll_buffer]
      simp only [List.length_take, ne_eq]
      have h1 : s.outgoing_buffer.length ≠ 0 := by
        simpa [List.length_eq_zero] using hbuf
      have h2 : 0 < (s.outgoing_buffer ++ poll_bytes drv).length := by
        simp only [List.length_append]
        omega
      omega
    rw [if_neg (by intro hc; exact hne hc.1)]
    rw [poll_id, poll_my_seq, poll_their_seq]
  · intro s2 now2 max2 drv2 i reason hfin
    have hne : (session_get_outgoing msgSize now2 s2 max2 drv2).frame ≠ none := by
      rw [hfin]; simp
    have ht2 : can_i_transmit_yet now2 s2 = true :=
      (outgoing_frame_iff_timer msgSize now2 s2 max2 drv2).1.mp hne
    have ht2p : can_i_transmit_yet now2 (poll_for_data drv2 s2) = true := by
      rw [can_i_transmit_poll]; exact ht2
    rcases hst2 : (poll_for_data drv2 s2).state with _ | _
    · rw [session_get_outgoing,
        outgoing_step_new msgSize now2 _ max2 ht2p hst2] at hfin
      simp at hfin
    · rw [session_get_outgoing,
        outgoing_step_est msgSize now2 _ max2 ht2p hst2] at hfin
      rw [poll_options] at hfin
      split at hfin
      · next hc => exact ⟨hc.1, hc.2⟩
      · simp at hfin

/-- C9 witness: with one unacknowledged byte buffered, the shut-down
session still sends the MSG carrying it, not a FIN; and a concrete FIN
production has zero peeked bytes. -/
theorem c9_msg_when_buffer_nonempty_witness :
    (session_get_outgoing (fun _ => 10) 2000
        ⟨1, .established, 2, 3, true, 0, [9], 0, none⟩ 100 (.bytes [])).frame =
      some (.msg 1 2 3 [9]) ∧
    ((poll_for_data .closed
        (⟨7, .established, 0, 0, true, 0, [], 0, none⟩ : Session)).outgoing_buffer.take
      (sub64 100 ((fun _ => 10) 0))).length = 0 := by
  have h := c9_msg_when_buffer_nonempty (fun _ => 10) 2000 100
      ⟨1, .established, 2, 3, true, 0, [9], 0, none⟩ (.bytes [])
      rfl rfl (by decide) (by decide) (by decide)
  constructor
  · rw [h.1]; decide
  · exact (h.2 ⟨7, .established, 0, 0, true, 0, [], 0, none⟩ 2000 100 .closed
      7 "Stream closed" rfl).1

/-- C10: with no ISN override configured, the session id and the initial
`my_seq` are each drawn modulo `0xFFFF` and hence strictly below `0xFFFF`
for every value of the random source; with an override `v ≤ 0xFFFF` set via
the debug hook, `my_seq` equals `v` exactly. -/
theorem c10_isn (r_id r_seq : Nat) (name : Option String) (v : Nat)
    (hv : v ≤ 0xFFFF) :
    (session_create ISN_DEFAULT r_id r_seq name).id < 0xFFFF ∧
    (session_create ISN_DEFAULT r_id r_seq name).my_seq < 0xFFFF ∧
    (session_create (debug_set_isn v) r_id r_seq name).my_seq = v := by
  refine ⟨?_, ?_, ?_⟩
  · simp only [session_create]
    exact Nat.mod_lt _ (by norm_num)
  · simp only [session_create, ISN_DEFAULT]
    rw [if_neg (by norm_num)]
    exact Nat.mod_lt _ (by norm_num)
  · simp only [session_create, debug_set_isn]
    rw [if_pos (by omega)]
    omega

/-- C10 witness: with override 777 the created session has `my_seq = 777`;
with the default ISN both id and `my_seq` stay below `0xFFFF`. -/
theorem c10_isn_witness :
    (session_create ISN_DEFAULT 5 6 none).id < 0xFFFF ∧
    (session_create ISN_DEFAULT 5 6 none).my_seq < 0xFFFF ∧
    (session_create (debug_set_isn 777) 5 6 none).my_seq = 777 :=
  c10_isn 5 6 none 777 (by decide)

/-! ## State monotonicity helpers for C5 -/

theorem dispatch_state_est (s : Session) (pkt : InPacket)
    (h : s.state = .established) :
    (incoming_dispatch s pkt).session.state = .established := by
  rcases pkt with b | m | r | t
  · rw [dispatch_est_syn s b h]; exact h
  · by_cases hseq : m.seq = s.their_seq
    · by_cases hack : bytesAcked m s ≤ s.outgoing_buffer.length
      · rw [dispatch_est_msg_accept s m h hseq hack]
        split <;> exact h
      · rw [dispatch_est_msg_badack s m h hseq (by omega)]; exact h
    · rw [dispatch_est_msg_badseq s m h hseq]; exact h
  · simp only [incoming_dispatch, h]
  · simp only [incoming_dispatch, h]

theorem dispatch_state_new (s : Session) (pkt : InPacket) (h : s.state = .new) :
    (incoming_dispatch s pkt).session.state = .new ∨
    (incoming_dispatch s pkt).session.state = .established := by
  rcases pkt with b | m | r | t
  · rw [dispatch_new_syn s b h]; exact Or.inr rfl
  · rw [dispatch_new_msg s m h]; exact Or.inl h
  · simp [incoming_dispatch, h]
  · simp [incoming_dispatch, h]

theorem outgoing_state (msgSize : Nat → Nat) (now : Nat) (s : Session)
    (max_length : Nat) (drv : DriverResp) :
    (session_get_outgoing msgSize now s max_length drv).session.state = s.state := by
  unfold session_get_outgoing
  rcases ht : can_i_transmit_yet now (poll_for_data drv s) with _ | _
  · rw [outgoing_step_blocked msgSize now _ max_length ht]
    exact poll_state drv s
  · rcases hst : (poll_for_data drv s).state with _ | _
    · rw [outgoing_step_new msgSize now _ max_length ht hst]
      exact poll_state drv s
    · rw [outgoing_step_est msgSize now _ max_length ht hst]
      split <;> exact poll_state drv s

theorem applyOp_state (op : Op) (s s' : Session) (h : applyOp op s = some s') :
    (s.state = .new → s'.state = .new ∨ s'.state = .established) ∧
    (s.state = .established → s'.state = .established) := by
  rcases op with ⟨pkt, drv⟩ | ⟨msgSize, now, max_length, drv⟩
  · simp only [applyOp] at h
    split at h
    · exact absurd h (by simp)
    · have hs : (session_data_incoming s pkt drv).session = s' :=
        Option.some.inj h
      constructor
      · intro hnew
        have hnew1 : (poll_for_data drv s).state = .new := by
          rw [poll_state]; exact hnew
        rw [← hs]
        exact dispatch_state_new (poll_for_data drv s) pkt hnew1
      · intro hest
        have hest1 : (poll_for_data drv s).state = .established := by
          rw [poll_state]; exact hest
        rw [← hs]
        exact dispatch_state_est (poll_for_data drv s) pkt hest1
  · simp only [applyOp] at h
    have hs : (session_get_outgoing msgSize now s max_length drv).session = s' :=
      Option.some.inj h
    rw [← hs, outgoing_state]
    exact ⟨Or.inl, id⟩

theorem applyOps_established (ops : List Op) :
    ∀ (s s' : Session), s.state = .established →
      applyOps ops s = some s' → s'.state = .established := by
  induction ops with
  | nil =>
      intro s s' hst h
      simp only [applyOps] at h
      rw [← Option.some.inj h]
      exact hst
  | cons op rest ih =>
      intro s s' hst h
      simp only [applyOps, Option.bind_eq_some] at h
      obtain ⟨s₁, hmid, hrest⟩ := h
      exact ih s₁ s' ((applyOp_state op s s₁ hmid).2 hst) hrest

/-- C5: the session state only moves forward: a freshly created session is
New; a single incoming-frame or outgoing-production operation takes New to
New or Established and keeps Established at Established; and no sequence of
operations ever returns an Established session to New. -/
theorem c5_state_forward_only :
    (∀ (isn r_id r_seq : Nat) (name : Option String),
        (session_create isn r_id r_seq name).state = .new) ∧
    (∀ (op : Op) (s s' : Session), applyOp op s = some s' →
        (s.state = .new → s'.state = .new ∨ s'.state = .established) ∧
        (s.state = .established → s'.state = .established)) ∧
    (∀ (ops : List Op) (s s' : Session), s.state = .established →
        applyOps ops s = some s' → s'.state = .established) := by
  refine ⟨fun _ _ _ _ => rfl, applyOp_state, fun ops s s' hst h => ?_⟩
  exact applyOps_established ops s s' hst h

/-- C5 witness: a concrete Established session run through a concrete
operation sequence is still Established. -/
theorem c5_state_forward_only_witness :
    (session_create ISN_DEFAULT 0 0 none).state = .new ∧
    (applyOps [Op.incoming (.msg ⟨0, 0, []⟩) (.bytes [])]
        ⟨1, .established, 0, 0, false, 0, [], 0, none⟩).map Session.state =
      some SessionState.established := by
  have h1 := c5_state_forward_only.1 ISN_DEFAULT 0 0 none
  have hrun : applyOps [Op.incoming (.msg ⟨0, 0, []⟩) (.bytes [])]
      (⟨1, .established, 0, 0, false, 0, [], 0, none⟩ : Session) =
      some ⟨1, .established, 0, 0, false, 0, [], 0, none⟩ := by decide
  have h2 := c5_state_forward_only.2.2
      [Op.incoming (.msg ⟨0, 0, []⟩) (.bytes [])]
      ⟨1, .established, 0, 0, false, 0, [], 0, none⟩
      ⟨1, .established, 0, 0, false, 0, [], 0, none⟩ rfl hrun
  rw [hrun]
  exact ⟨h1, congrArg some h2⟩
